import Mathlib

set_option autoImplicit false

/-!
Shallow embedding of the resource-lifecycle layer in
src/libbpf-rs/src/object.rs: the ObjectBuilder open/load pipeline, the
flag sets, and the Map operation contract.  The kernel and the external
loading library are modelled as an explicit oracle (a structure of
functions), and every library call a run performs is recorded in a trace
so that statements about "no kernel operation is performed" are
expressible.
-/

/-- The typed error taxonomy of the crate: caller input rejected before any
kernel interaction, or a rejection by the underlying library/kernel. -/
inductive Error where
  | invalidInput : String → Error
  | internal : String → Error
  deriving DecidableEq, Repr

def Error.isInvalidInput : Error → Bool
  | .invalidInput _ => true
  | .internal _ => false

def Error.isInternal : Error → Bool
  | .invalidInput _ => false
  | .internal _ => true

def exceptIsOk {α : Type} : Except Error α → Bool
  | .ok _ => true
  | .error _ => false

def exceptIsInvalidInput {α : Type} : Except Error α → Bool
  | .error e => e.isInvalidInput
  | .ok _ => false

def exceptIsInternal {α : Type} : Except Error α → Bool
  | .error e => e.isInternal
  | .ok _ => false

/-- Mirror of libbpf_sys::bpf_object_open_opts as filled in by
ObjectBuilder::opts.  A C null pointer is modelled as none. -/
structure OpenOpts where
  object_name : Option String
  relaxed_maps : Bool
  relaxed_core_relocs : Bool
  pin_root_path : Option String
  attach_prog_fd : Int
  kconfig : Option String
  deriving DecidableEq, Repr

/-- Pending open configuration, mirror of struct ObjectBuilder. -/
structure ObjectBuilder where
  name : String
  relaxed_maps : Bool
  deriving DecidableEq, Repr

/-- ObjectBuilder::set_name: overrides the pending name. -/
def ObjectBuilder.set_name (b : ObjectBuilder) (name : String) : ObjectBuilder :=
  { b with name := name }

/-- ObjectBuilder::set_relaxed_maps: sets the relaxed map parsing option. -/
def ObjectBuilder.set_relaxed_maps (b : ObjectBuilder) (relaxed_maps : Bool) : ObjectBuilder :=
  { b with relaxed_maps := relaxed_maps }

/-- ObjectBuilder::opts: builds the open options record handed to the
underlying open calls; only object_name and relaxed_maps vary. -/
def ObjectBuilder.opts (b : ObjectBuilder) (name : Option String) : OpenOpts :=
  { object_name := name
    relaxed_maps := b.relaxed_maps
    relaxed_core_relocs := false
    pin_root_path := none
    attach_prog_fd := 0
    kconfig := none }

/-- The Default impl of ObjectBuilder: empty name, relaxed_maps off. -/
def ObjectBuilder.default : ObjectBuilder :=
  { name := "", relaxed_maps := false }

/-- A Rust Path argument: display is Path::display's rendering, to_unicode is
Path::to_str (none when the path is not valid unicode). -/
structure RustPath where
  display : String
  to_unicode : Option String
  deriving DecidableEq, Repr

def hasNulByte (s : String) : Bool :=
  s.data.any (fun c => c.toNat == 0)

/-- Modelled from the spec: util::str_to_cstring lives in the crate's util
module, which is not under src (only its call sites are).  Per the design
note on foreign string conversion it produces a null-terminated C string
from a Rust string, which can only fail, with InvalidInput, when the
string has an interior nul byte. -/
def str_to_cstring (s : String) : Except Error String :=
  if hasNulByte s then .error (.invalidInput (s ++ " contains an interior nul byte"))
  else .ok s

/-- Oracle for the external library/kernel boundary: bpf_object__open_file
and bpf_object__open_mem return a non-null handle (some) or null (none);
bpf_object__load returns a C int, 0 on success. -/
structure Kernel where
  open_file : String → OpenOpts → Option Nat
  open_mem : List Nat → OpenOpts → Option Nat
  load : Nat → Int

/-- One call into the external library, as recorded in a run's trace. -/
inductive KernelCall where
  | openFile : String → OpenOpts → KernelCall
  | openMem : List Nat → OpenOpts → KernelCall
  | loadObj : Nat → KernelCall
  deriving DecidableEq, Repr

/-- Modelled from the spec: whether a library call allocates kernel-visible
state.  The open calls only parse in user space (the spec: no prior call
allocates kernel-visible state); the load call allocates kernel-visible
state exactly when it succeeds (failed loads leave no live handle). -/
def KernelCall.allocates (k : Kernel) : KernelCall → Bool
  | .openFile _ _ => false
  | .openMem _ _ => false
  | .loadObj h => decide (k.load h = 0)

/-- A loaded object handle.  The field is the native pointer value. -/
structure Object where
  handle : Nat
  deriving DecidableEq, Repr

/-- Modelled from the spec: Object::new is left unimplemented in
src/libbpf-rs/src/object.rs.  Per the spec the Object exclusively owns the
native handle produced by the open call, so it is modelled as the wrapper
of that handle. -/
def Object.new (ptr : Nat) : Object :=
  { handle := ptr }

/-- The empty-name test applied to the converted name before choosing the
object_name pointer: an empty name becomes a null pointer. -/
def nameOpt (n : String) : Option String :=
  if n = "" then none else some n

/-- ObjectBuilder::from_path.  Returns the result together with the trace
of external library calls the run performed, in order. -/
def ObjectBuilder.from_path (b : ObjectBuilder) (k : Kernel) (path : RustPath) :
    Except Error Object × List KernelCall :=
  match path.to_unicode with
  | none =>
    (.error (.invalidInput (path.display ++ " is not valid unicode")), [])
  | some path_str =>
    match str_to_cstring path_str with
    | .error e => (.error e, [])
    | .ok path_c =>
      match str_to_cstring b.name with
      | .error e => (.error e, [])
      | .ok name_c =>
        let name_ptr : Option String := if b.name = "" then none else some name_c
        let opts := b.opts name_ptr
        match k.open_file path_c opts with
        | none =>
          (.error (.internal "Could not create bpf_object"), [.openFile path_c opts])
        | some obj =>
          if k.load obj ≠ 0 then
            (.error (.internal "Could not load bpf_object"),
              [.openFile path_c opts, .loadObj obj])
          else
            (.ok (Object.new obj), [.openFile path_c opts, .loadObj obj])

/-- ObjectBuilder::from_memory.  The name comes from the mandatory argument
(the builder's stored name is not consulted); the artifact is the byte
buffer mem. -/
def ObjectBuilder.from_memory (b : ObjectBuilder) (k : Kernel) (name : String)
    (mem : List Nat) : Except Error Object × List KernelCall :=
  match str_to_cstring name with
  | .error e => (.error e, [])
  | .ok name_c =>
    let name_ptr : Option String := if name_c = "" then none else some name_c
    let opts := b.opts name_ptr
    match k.open_mem mem opts with
    | none =>
      (.error (.internal "Could not create bpf_object"), [.openMem mem opts])
    | some obj =>
      if k.load obj ≠ 0 then
        (.error (.internal "Could not load bpf_object"),
          [.openMem mem opts, .loadObj obj])
      else
        (.ok (Object.new obj), [.openMem mem opts, .loadObj obj])

/-! Flag sets, bit-exact from the bitflags blocks in the source. -/

def MapBuilderFlags.NO_PREALLOC : Nat := 1
def MapBuilderFlags.NO_COMMON_LRU : Nat := 1 <<< 1
def MapBuilderFlags.NUMA_NODE : Nat := 1 <<< 2
def MapBuilderFlags.RDONLY : Nat := 1 <<< 3
def MapBuilderFlags.WRONLY : Nat := 1 <<< 4
def MapBuilderFlags.STACK_BUILD_ID : Nat := 1 <<< 5
def MapBuilderFlags.ZERO_SEED : Nat := 1 <<< 6
def MapBuilderFlags.RDONLY_PROG : Nat := 1 <<< 7
def MapBuilderFlags.WRONLY_PROG : Nat := 1 <<< 8
def MapBuilderFlags.CLONE : Nat := 1 <<< 9
def MapBuilderFlags.MMAPABLE : Nat := 1 <<< 10

def MapFlags.ANY : Nat := 0
def MapFlags.NO_EXIST : Nat := 1
def MapFlags.EXIST : Nat := 1 <<< 1
def MapFlags.LOCK : Nat := 1 <<< 2

def CgroupAttachFlags.ALLOW_OVERRIDE : Nat := 1
def CgroupAttachFlags.ALLOW_MULTI : Nat := 1 <<< 1
def CgroupAttachFlags.REPLACE : Nat := 1 <<< 2

/-! The Map handle and its operations.  The kernel-resident contents of a
map are modelled as an association list of key/value byte strings, passed
and returned explicitly; the Bool in each result records whether the
kernel operation was performed. -/

/-- Kernel-resident contents of one map: key bytes paired with value bytes. -/
abbrev MapState := List (List Nat × List Nat)

def mapFind : MapState → List Nat → Option (List Nat)
  | [], _ => none
  | (k, v) :: rest, key => if k = key then some v else mapFind rest key

def mapErase : MapState → List Nat → MapState
  | [], _ => []
  | (k, v) :: rest, key =>
    if k = key then mapErase rest key else (k, v) :: mapErase rest key

/-- A loaded map handle: name, file descriptor and declared sizes, all pure
reads once loaded. -/
structure Map where
  name : String
  fd : Int
  key_size : Nat
  value_size : Nat
  deriving DecidableEq, Repr

/-- Modelled from the spec: Map::lookup is left unimplemented in
src/libbpf-rs/src/object.rs.  Per the spec it returns none when the key is
absent (not an error), the value bytes when present, and fails with
InvalidInput, performing no kernel call, when the key buffer length
differs from key_size. -/
def Map.lookup (m : Map) (st : MapState) (key : List Nat) (_flags : Nat) :
    Except Error (Option (List Nat)) × Bool :=
  if key.length ≠ m.key_size then
    (.error (.invalidInput "key size mismatch"), false)
  else
    (.ok (mapFind st key), true)

/-- Modelled from the spec: Map::update is left unimplemented in
src/libbpf-rs/src/object.rs.  Per the spec both buffer lengths are checked
before any kernel call; the kernel then rejects NO_EXIST on a present key
and EXIST on an absent key (mapped to Internal) and otherwise stores the
entry. -/
def Map.update (m : Map) (st : MapState) (key value : List Nat) (flags : Nat) :
    Except Error Unit × MapState × Bool :=
  if key.length ≠ m.key_size then
    (.error (.invalidInput "key size mismatch"), st, false)
  else if value.length ≠ m.value_size then
    (.error (.invalidInput "value size mismatch"), st, false)
  else if flags = MapFlags.NO_EXIST ∧ (mapFind st key).isSome = true then
    (.error (.internal "key already exists"), st, true)
  else if flags = MapFlags.EXIST ∧ (mapFind st key).isSome = false then
    (.error (.internal "key does not exist"), st, true)
  else
    (.ok (), (key, value) :: st, true)

/-- Modelled from the spec: Map::delete is left unimplemented in
src/libbpf-rs/src/object.rs.  Per the spec the key length is checked before
any kernel call and deleting an absent key fails with kernel-defined
semantics (mapped to Internal). -/
def Map.delete (m : Map) (st : MapState) (key : List Nat) :
    Except Error Unit × MapState × Bool :=
  if key.length ≠ m.key_size then
    (.error (.invalidInput "key size mismatch"), st, false)
  else if (mapFind st key).isSome = true then
    (.ok (), mapErase st key, true)
  else
    (.error (.internal "key does not exist"), st, true)

/-- Modelled from the spec: Map::lookup_and_delete is left unimplemented in
src/libbpf-rs/src/object.rs.  Per the spec it is an atomic read-then-remove
with the same size/error contract as lookup. -/
def Map.lookup_and_delete (m : Map) (st : MapState) (key : List Nat) (_flags : Nat) :
    Except Error (Option (List Nat)) × MapState × Bool :=
  if key.length ≠ m.key_size then
    (.error (.invalidInput "key size mismatch"), st, false)
  else
    (.ok (mapFind st key), mapErase st key, true)

/-! Concrete fixtures used by witnesses and counterexamples. -/

/-- A kernel oracle on which every open and load succeeds. -/
def kOk : Kernel :=
  { open_file := fun _ _ => some 1
    open_mem := fun _ _ => some 1
    load := fun _ => 0 }

/-- A kernel oracle on which the open calls return null. -/
def kOpenFail : Kernel :=
  { open_file := fun _ _ => none
    open_mem := fun _ _ => none
    load := fun _ => 0 }

/-- A kernel oracle on which opens succeed but every load is rejected. -/
def kLoadFail : Kernel :=
  { open_file := fun _ _ => some 7
    open_mem := fun _ _ => some 7
    load := fun _ => -1 }

/-- A path that is valid unicode. -/
def pathGood : RustPath :=
  { display := "/tmp/prog.o", to_unicode := some "/tmp/prog.o" }

/-- A path that is not representable as unicode. -/
def pathBad : RustPath :=
  { display := "<bad>", to_unicode := none }

/-- A loaded-map fixture with key_size 4 and value_size 8. -/
def mTest : Map :=
  { name := "counts", fd := 3, key_size := 4, value_size := 8 }

/-- Map contents holding one entry, for the existing-key cases. -/
def stPresent : MapState :=
  [([0, 0, 0, 2], [8, 8, 8, 8, 8, 8, 8, 8])]

/-! Helper lemmas shared by several claim theorems. -/

/-- Once the path is valid unicode and neither the path string nor the
builder's name has an interior nul byte, from_path reduces to the open/load
tail over the kernel oracle. -/
theorem from_path_kernel_phase (b : ObjectBuilder) (k : Kernel) (path : RustPath)
    (s : String) (hp : path.to_unicode = some s) (hs : hasNulByte s = false)
    (hb : hasNulByte b.name = false) :
    b.from_path k path =
      match k.open_file s (b.opts (nameOpt b.name)) with
      | none =>
        ((.error (.internal "Could not create bpf_object") : Except Error Object),
          [KernelCall.openFile s (b.opts (nameOpt b.name))])
      | some obj =>
        if k.load obj ≠ 0 then
          (.error (.internal "Could not load bpf_object"),
            [KernelCall.openFile s (b.opts (nameOpt b.name)), KernelCall.loadObj obj])
        else
          (.ok (Object.new obj),
            [KernelCall.openFile s (b.opts (nameOpt b.name)), KernelCall.loadObj obj]) := by
  simp [ObjectBuilder.from_path, hp, str_to_cstring, hs, hb, nameOpt]

/-- Once the supplied name has no interior nul byte, from_memory reduces to
the open/load tail over the kernel oracle. -/
theorem from_memory_kernel_phase (b : ObjectBuilder) (k : Kernel) (name : String)
    (mem : List Nat) (hn : hasNulByte name = false) :
    b.from_memory k name mem =
      match k.open_mem mem (b.opts (nameOpt name)) with
      | none =>
        ((.error (.internal "Could not create bpf_object") : Except Error Object),
          [KernelCall.openMem mem (b.opts (nameOpt name))])
      | some obj =>
        if k.load obj ≠ 0 then
          (.error (.internal "Could not load bpf_object"),
            [KernelCall.openMem mem (b.opts (nameOpt name)), KernelCall.loadObj obj])
        else
          (.ok (Object.new obj),
            [KernelCall.openMem mem (b.opts (nameOpt name)), KernelCall.loadObj obj]) := by
  simp [ObjectBuilder.from_memory, str_to_cstring, hn, nameOpt]

/-- C9: set_name and set_relaxed_maps are total (no failure mode), return the
updated builder for chaining, and each mutates only its own field: set_name
changes only name, set_relaxed_maps changes only relaxed_maps. -/
theorem c9_setters_total_and_frame (b : ObjectBuilder) (n : String) (r : Bool) :
    (b.set_name n).name = n ∧ (b.set_name n).relaxed_maps = b.relaxed_maps ∧
    (b.set_relaxed_maps r).relaxed_maps = r ∧ (b.set_relaxed_maps r).name = b.name :=
  ⟨rfl, rfl, rfl, rfl⟩

/-- C8: the flag sets are closed collections of named 64-bit values with the
exact bit layout of the source: MapBuilderFlags occupies consecutive bits
from NO_PREALLOC = 1 to MMAPABLE = 1 <<< 10, MapFlags is ANY = 0 (the
identity for bitwise-OR combination), NO_EXIST = 1, EXIST = 2, LOCK = 4,
and CgroupAttachFlags is 1, 2, 4; every constant fits in 64 bits. -/
theorem c8_flag_bit_layout :
    (MapBuilderFlags.NO_PREALLOC = 1 ∧ MapBuilderFlags.NO_COMMON_LRU = 1 <<< 1 ∧
      MapBuilderFlags.NUMA_NODE = 1 <<< 2 ∧ MapBuilderFlags.RDONLY = 1 <<< 3 ∧
      MapBuilderFlags.WRONLY = 1 <<< 4 ∧ MapBuilderFlags.STACK_BUILD_ID = 1 <<< 5 ∧
      MapBuilderFlags.ZERO_SEED = 1 <<< 6 ∧ MapBuilderFlags.RDONLY_PROG = 1 <<< 7 ∧
      MapBuilderFlags.WRONLY_PROG = 1 <<< 8 ∧ MapBuilderFlags.CLONE = 1 <<< 9 ∧
      MapBuilderFlags.MMAPABLE = 1 <<< 10) ∧
    (MapFlags.ANY = 0 ∧ MapFlags.NO_EXIST = 1 ∧ MapFlags.EXIST = 1 <<< 1 ∧
      MapFlags.LOCK = 1 <<< 2) ∧
    (CgroupAttachFlags.ALLOW_OVERRIDE = 1 ∧ CgroupAttachFlags.ALLOW_MULTI = 1 <<< 1 ∧
      CgroupAttachFlags.REPLACE = 1 <<< 2) ∧
    (∀ x : Nat, MapFlags.ANY ||| x = x ∧ x ||| MapFlags.ANY = x) ∧
    (MapBuilderFlags.MMAPABLE < 2 ^ 64 ∧ MapFlags.LOCK < 2 ^ 64 ∧
      CgroupAttachFlags.REPLACE < 2 ^ 64) := by
  refine ⟨by decide, by decide, by decide, ?_, by decide⟩
  intro x
  simp [MapFlags.ANY]

/-- C2: a path argument that is not representable as valid unicode makes
from_path fail with InvalidInput, and the trace is empty: the failure
happens before any call into the library or kernel. -/
theorem c2_nonunicode_path_invalid_input (b : ObjectBuilder) (k : Kernel)
    (path : RustPath) (h : path.to_unicode = none) :
    b.from_path k path =
      (.error (.invalidInput (path.display ++ " is not valid unicode")), []) := by
  simp [ObjectBuilder.from_path, h]

theorem c2_witness :
    pathBad.to_unicode = none ∧
    ObjectBuilder.default.from_path kOk pathBad =
      (.error (.invalidInput (pathBad.display ++ " is not valid unicode")), []) :=
  ⟨rfl, c2_nonunicode_path_invalid_input ObjectBuilder.default kOk pathBad rfl⟩

/-- Open/load contract of from_path over an arbitrary kernel oracle. -/
theorem from_path_contract (b : ObjectBuilder) (k : Kernel) (path : RustPath)
    (s : String) (hp : path.to_unicode = some s) (hs : hasNulByte s = false)
    (hb : hasNulByte b.name = false) :
    (k.open_file s (b.opts (nameOpt b.name)) = none →
      (b.from_path k path).1 = .error (.internal "Could not create bpf_object")) ∧
    (∀ h : Nat, k.open_file s (b.opts (nameOpt b.name)) = some h → k.load h ≠ 0 →
      (b.from_path k path).1 = .error (.internal "Could not load bpf_object")) ∧
    (exceptIsOk (b.from_path k path).1 = true ↔
      ∃ h : Nat, k.open_file s (b.opts (nameOpt b.name)) = some h ∧ k.load h = 0) := by
  rw [from_path_kernel_phase b k path s hp hs hb]
  cases ho : k.open_file s (b.opts (nameOpt b.name)) with
  | none => simp [exceptIsOk]
  | some h =>
    by_cases hl : k.load h = 0
    · simp [hl, exceptIsOk]
    · simp [hl, exceptIsOk]

/-- Open/load contract of from_memory over an arbitrary kernel oracle. -/
theorem from_memory_contract (b : ObjectBuilder) (k : Kernel) (name : String)
    (mem : List Nat) (hn : hasNulByte name = false) :
    (k.open_mem mem (b.opts (nameOpt name)) = none →
      (b.from_memory k name mem).1 = .error (.internal "Could not create bpf_object")) ∧
    (∀ h : Nat, k.open_mem mem (b.opts (nameOpt name)) = some h → k.load h ≠ 0 →
      (b.from_memory k name mem).1 = .error (.internal "Could not load bpf_object")) ∧
    (exceptIsOk (b.from_memory k name mem).1 = true ↔
      ∃ h : Nat, k.open_mem mem (b.opts (nameOpt name)) = some h ∧ k.load h = 0) := by
  rw [from_memory_kernel_phase b k name mem hn]
  cases ho : k.open_mem mem (b.opts (nameOpt name)) with
  | none => simp [exceptIsOk]
  | some h =>
    by_cases hl : k.load h = 0
    · simp [hl, exceptIsOk]
    · simp [hl, exceptIsOk]

/-- C3: when the underlying library rejects the open/parse step (null handle,
as for a nonexistent path) or the kernel rejects the load step (nonzero
return), from_path and from_memory return an Internal error; they return Ok
exactly when the open succeeds and the immediately following load succeeds. -/
theorem c3_internal_on_open_or_load_rejection (b : ObjectBuilder) (k : Kernel)
    (path : RustPath) (s name : String) (mem : List Nat)
    (hp : path.to_unicode = some s) (hs : hasNulByte s = false)
    (hb : hasNulByte b.name = false) (hn : hasNulByte name = false) :
    ((k.open_file s (b.opts (nameOpt b.name)) = none →
      (b.from_path k path).1 = .error (.internal "Could not create bpf_object")) ∧
    (∀ h : Nat, k.open_file s (b.opts (nameOpt b.name)) = some h → k.load h ≠ 0 →
      (b.from_path k path).1 = .error (.internal "Could not load bpf_object")) ∧
    (exceptIsOk (b.from_path k path).1 = true ↔
      ∃ h : Nat, k.open_file s (b.opts (nameOpt b.name)) = some h ∧ k.load h = 0)) ∧
    ((k.open_mem mem (b.opts (nameOpt name)) = none →
      (b.from_memory k name mem).1 = .error (.internal "Could not create bpf_object")) ∧
    (∀ h : Nat, k.open_mem mem (b.opts (nameOpt name)) = some h → k.load h ≠ 0 →
      (b.from_memory k name mem).1 = .error (.internal "Could not load bpf_object")) ∧
    (exceptIsOk (b.from_memory k name mem).1 = true ↔
      ∃ h : Nat, k.open_mem mem (b.opts (nameOpt name)) = some h ∧ k.load h = 0)) :=
  ⟨from_path_contract b k path s hp hs hb, from_memory_contract b k name mem hn⟩

theorem c3_witness :
    pathGood.to_unicode = some "/tmp/prog.o" ∧ hasNulByte "/tmp/prog.o" = false ∧
    hasNulByte ObjectBuilder.default.name = false ∧ hasNulByte "n" = false ∧
    (ObjectBuilder.default.from_path kLoadFail pathGood).1 =
      .error (.internal "Could not load bpf_object") :=
  ⟨rfl, by decide, by decide, by decide,
    (c3_internal_on_open_or_load_rejection ObjectBuilder.default kLoadFail pathGood
      "/tmp/prog.o" "n" [1] rfl (by decide) (by decide) (by decide)).1.2.1 7 rfl
      (by decide)⟩

/-- In every run of from_path, either no recorded call allocated
kernel-visible state or the run returned Ok. -/
theorem from_path_alloc_or_ok (b : ObjectBuilder) (k : Kernel) (path : RustPath) :
    ((b.from_path k path).2.filter (fun c => c.allocates k)) = [] ∨
    exceptIsOk (b.from_path k path).1 = true := by
  cases hu : path.to_unicode with
  | none => left; simp [ObjectBuilder.from_path, hu]
  | some s =>
    cases hns : hasNulByte s with
    | true => left; simp [ObjectBuilder.from_path, hu, str_to_cstring, hns]
    | false =>
      cases hnb : hasNulByte b.name with
      | true => left; simp [ObjectBuilder.from_path, hu, str_to_cstring, hns, hnb]
      | false =>
        rw [from_path_kernel_phase b k path s hu hns hnb]
        cases ho : k.open_file s (b.opts (nameOpt b.name)) with
        | none => left; simp [KernelCall.allocates]
        | some obj =>
          by_cases hl : k.load obj = 0
          · right; simp [hl, exceptIsOk]
          · left; simp [hl, KernelCall.allocates]

/-- In every run of from_memory, either no recorded call allocated
kernel-visible state or the run returned Ok. -/
theorem from_memory_alloc_or_ok (b : ObjectBuilder) (k : Kernel) (name : String)
    (mem : List Nat) :
    ((b.from_memory k name mem).2.filter (fun c => c.allocates k)) = [] ∨
    exceptIsOk (b.from_memory k name mem).1 = true := by
  cases hn : hasNulByte name with
  | true => left; simp [ObjectBuilder.from_memory, str_to_cstring, hn]
  | false =>
    rw [from_memory_kernel_phase b k name mem hn]
    cases ho : k.open_mem mem (b.opts (nameOpt name)) with
    | none => left; simp [KernelCall.allocates]
    | some obj =>
      by_cases hl : k.load obj = 0
      · right; simp [hl, exceptIsOk]
      · left; simp [hl, KernelCall.allocates]

/-- C4: whenever from_path or from_memory returns an error, no call recorded
in the run's trace allocated kernel-visible state, and no live handle is
returned to the caller. -/
theorem c4_error_leaves_no_kernel_state (b : ObjectBuilder) (k : Kernel)
    (path : RustPath) (name : String) (mem : List Nat) :
    (∀ e : Error, (b.from_path k path).1 = .error e →
      ((b.from_path k path).2.filter (fun c => c.allocates k)) = [] ∧
      ∀ o : Object, (b.from_path k path).1 ≠ .ok o) ∧
    (∀ e : Error, (b.from_memory k name mem).1 = .error e →
      ((b.from_memory k name mem).2.filter (fun c => c.allocates k)) = [] ∧
      ∀ o : Object, (b.from_memory k name mem).1 ≠ .ok o) := by
  constructor
  · intro e he
    refine ⟨?_, fun o ho => by rw [he] at ho; exact Except.noConfusion ho⟩
    rcases from_path_alloc_or_ok b k path with h | h
    · exact h
    · rw [he] at h; simp [exceptIsOk] at h
  · intro e he
    refine ⟨?_, fun o ho => by rw [he] at ho; exact Except.noConfusion ho⟩
    rcases from_memory_alloc_or_ok b k name mem with h | h
    · exact h
    · rw [he] at h; simp [exceptIsOk] at h

theorem c4_witness :
    (ObjectBuilder.default.from_path kLoadFail pathGood).1 =
      .error (.internal "Could not load bpf_object") ∧
    ((ObjectBuilder.default.from_path kLoadFail pathGood).2.filter
      (fun c => c.allocates kLoadFail)) = [] :=
  ⟨rfl,
    ((c4_error_leaves_no_kernel_state ObjectBuilder.default kLoadFail pathGood "n" [1]).1
      (.internal "Could not load bpf_object") rfl).1⟩

/-- C5 counterexample: the claim says a from_memory call must supply a
non-empty name, but a call with the empty name is accepted: on a kernel
oracle where open and load succeed it returns Ok, with no name-related
error. -/
theorem c5_counterexample_empty_name_accepted :
    (ObjectBuilder.default.from_memory kOk "" [1, 2, 3]).1 = .ok (Object.new 1) := rfl

/-- C5 (amended): from_memory follows the same open-then-load contract as
from_path except that the artifact is the caller's in-memory byte buffer
and the object name comes from the mandatory name argument; an empty name
is not rejected but is passed as a null object-name pointer (no override),
and with an empty name any failure is an Internal open/load failure, never
a name-related InvalidInput. -/
theorem c5_from_memory_contract_empty_name_is_null (b : ObjectBuilder) (k : Kernel)
    (name : String) (mem : List Nat) (hn : hasNulByte name = false) :
    (b.from_memory k name mem =
      match k.open_mem mem (b.opts (nameOpt name)) with
      | none =>
        ((.error (.internal "Could not create bpf_object") : Except Error Object),
          [KernelCall.openMem mem (b.opts (nameOpt name))])
      | some obj =>
        if k.load obj ≠ 0 then
          (.error (.internal "Could not load bpf_object"),
            [KernelCall.openMem mem (b.opts (nameOpt name)), KernelCall.loadObj obj])
        else
          (.ok (Object.new obj),
            [KernelCall.openMem mem (b.opts (nameOpt name)), KernelCall.loadObj obj])) ∧
    nameOpt "" = none ∧
    (name ≠ "" → nameOpt name = some name) ∧
    (∀ e : Error, name = "" → (b.from_memory k name mem).1 = .error e →
      e.isInternal = true) := by
  refine ⟨from_memory_kernel_phase b k name mem hn, rfl, ?_, ?_⟩
  · intro h
    simp [nameOpt, h]
  · intro e hname he
    subst hname
    rw [from_memory_kernel_phase b k "" mem hn] at he
    cases ho : k.open_mem mem (b.opts (nameOpt "")) with
    | none =>
      rw [ho] at he
      simp at he
      simp [← he, Error.isInternal]
    | some obj =>
      rw [ho] at he
      by_cases hl : k.load obj = 0
      · simp [hl] at he
      · simp [hl] at he
        simp [← he, Error.isInternal]

theorem c5_witness :
    hasNulByte "" = false ∧ nameOpt "" = none :=
  ⟨rfl,
    (c5_from_memory_contract_empty_name_is_null ObjectBuilder.default kOk "" [1, 2]
      rfl).2.1⟩

/-- C10: a default-constructed ObjectBuilder has an empty name and
relaxed_maps false; whenever the relevant name is empty, from_path and
from_memory pass a null object-name pointer to the underlying open call
(the first recorded call), and a non-empty name is passed through, so the
override takes effect only for non-empty names. -/
theorem c10_default_builder_and_null_name_pointer (b : ObjectBuilder) (k : Kernel)
    (path : RustPath) (s name : String) (mem : List Nat)
    (hp : path.to_unicode = some s) (hs : hasNulByte s = false)
    (hb : hasNulByte b.name = false) (hn : hasNulByte name = false) :
    ObjectBuilder.default.name = "" ∧
    ObjectBuilder.default.relaxed_maps = false ∧
    (b.from_path k path).2.head? =
      some (KernelCall.openFile s (b.opts (nameOpt b.name))) ∧
    (b.from_memory k name mem).2.head? =
      some (KernelCall.openMem mem (b.opts (nameOpt name))) ∧
    (b.name = "" → (b.opts (nameOpt b.name)).object_name = none) ∧
    (name = "" → (b.opts (nameOpt name)).object_name = none) ∧
    (b.name ≠ "" → (b.opts (nameOpt b.name)).object_name = some b.name) := by
  refine ⟨rfl, rfl, ?_, ?_, ?_, ?_, ?_⟩
  · rw [from_path_kernel_phase b k path s hp hs hb]
    cases ho : k.open_file s (b.opts (nameOpt b.name)) with
    | none => rfl
    | some obj => by_cases hl : k.load obj = 0 <;> simp [hl]
  · rw [from_memory_kernel_phase b k name mem hn]
    cases ho : k.open_mem mem (b.opts (nameOpt name)) with
    | none => rfl
    | some obj => by_cases hl : k.load obj = 0 <;> simp [hl]
  · intro h
    simp [nameOpt, h, ObjectBuilder.opts]
  · intro h
    simp [nameOpt, h, ObjectBuilder.opts]
  · intro h
    simp [nameOpt, h, ObjectBuilder.opts]

theorem c10_witness :
    pathGood.to_unicode = some "/tmp/prog.o" ∧ hasNulByte "/tmp/prog.o" = false ∧
    hasNulByte ObjectBuilder.default.name = false ∧ hasNulByte "" = false ∧
    (ObjectBuilder.default.from_path kOk pathGood).2.head? =
      some (KernelCall.openFile "/tmp/prog.o"
        (ObjectBuilder.default.opts (nameOpt ObjectBuilder.default.name))) :=
  ⟨rfl, by decide, rfl, rfl,
    (c10_default_builder_and_null_name_pointer ObjectBuilder.default kOk pathGood
      "/tmp/prog.o" "" [] rfl (by decide) rfl rfl).2.2.1⟩

/-- C1: for every map and key/value byte buffers, lookup, lookup_and_delete,
update and delete fail with InvalidInput whenever the key buffer length
differs from key_size (and update also when the value buffer length differs
from value_size), and in that case no kernel operation is performed. -/
theorem c1_size_mismatch_invalid_input_no_kernel_op (m : Map) (st : MapState)
    (key value : List Nat) (flags : Nat) :
    (key.length ≠ m.key_size →
      exceptIsInvalidInput (m.lookup st key flags).1 = true ∧
      (m.lookup st key flags).2 = false ∧
      exceptIsInvalidInput (m.lookup_and_delete st key flags).1 = true ∧
      (m.lookup_and_delete st key flags).2.2 = false ∧
      exceptIsInvalidInput (m.delete st key).1 = true ∧
      (m.delete st key).2.2 = false ∧
      exceptIsInvalidInput (m.update st key value flags).1 = true ∧
      (m.update st key value flags).2.2 = false) ∧
    (value.length ≠ m.value_size →
      exceptIsInvalidInput (m.update st key value flags).1 = true ∧
      (m.update st key value flags).2.2 = false) := by
  constructor
  · intro hk
    simp [Map.lookup, Map.lookup_and_delete, Map.delete, Map.update, hk,
      exceptIsInvalidInput, Error.isInvalidInput]
  · intro hv
    by_cases hk : key.length = m.key_size <;>
      simp [Map.update, hk, hv, exceptIsInvalidInput, Error.isInvalidInput]

theorem c1_witness :
    ([1] : List Nat).length ≠ mTest.key_size ∧
    ([2, 3] : List Nat).length ≠ mTest.value_size ∧
    exceptIsInvalidInput (mTest.lookup [] [1] 0).1 = true ∧
    (mTest.lookup [] [1] 0).2 = false ∧
    exceptIsInvalidInput (mTest.update [] [1, 1, 1, 1] [2, 3] 0).1 = true ∧
    (mTest.update [] [1, 1, 1, 1] [2, 3] 0).2.2 = false :=
  ⟨by decide, by decide,
    ((c1_size_mismatch_invalid_input_no_kernel_op mTest [] [1] [2, 3] 0).1
      (by decide)).1,
    ((c1_size_mismatch_invalid_input_no_kernel_op mTest [] [1] [2, 3] 0).1
      (by decide)).2.1,
    ((c1_size_mismatch_invalid_input_no_kernel_op mTest [] [1, 1, 1, 1] [2, 3] 0).2
      (by decide)).1,
    ((c1_size_mismatch_invalid_input_no_kernel_op mTest [] [1, 1, 1, 1] [2, 3] 0).2
      (by decide)).2⟩

/-- C6: on a loaded map, with correctly sized key and value, update with ANY
followed by lookup with ANY on the resulting map contents returns
Ok(some value): the value written is the value read back. -/
theorem c6_update_then_lookup_returns_value (m : Map) (st : MapState)
    (key value : List Nat) (hk : key.length = m.key_size)
    (hv : value.length = m.value_size) :
    (m.update st key value MapFlags.ANY).1 = .ok () ∧
    (m.lookup (m.update st key value MapFlags.ANY).2.1 key MapFlags.ANY).1 =
      .ok (some value) := by
  constructor <;>
    simp [Map.update, Map.lookup, MapFlags.ANY, MapFlags.NO_EXIST, MapFlags.EXIST,
      hk, hv, mapFind]

theorem c6_witness :
    ([0, 0, 0, 1] : List Nat).length = mTest.key_size ∧
    ([1, 2, 3, 4, 5, 6, 7, 8] : List Nat).length = mTest.value_size ∧
    (mTest.update [] [0, 0, 0, 1] [1, 2, 3, 4, 5, 6, 7, 8] MapFlags.ANY).1 = .ok () ∧
    (mTest.lookup
      (mTest.update [] [0, 0, 0, 1] [1, 2, 3, 4, 5, 6, 7, 8] MapFlags.ANY).2.1
      [0, 0, 0, 1] MapFlags.ANY).1 = .ok (some [1, 2, 3, 4, 5, 6, 7, 8]) :=
  ⟨by decide, by decide,
    (c6_update_then_lookup_returns_value mTest [] [0, 0, 0, 1]
      [1, 2, 3, 4, 5, 6, 7, 8] (by decide) (by decide)).1,
    (c6_update_then_lookup_returns_value mTest [] [0, 0, 0, 1]
      [1, 2, 3, 4, 5, 6, 7, 8] (by decide) (by decide)).2⟩

/-- C7: with correctly sized key and value, update with NO_EXIST fails when
the key is already present and succeeds when it is absent, while update with
EXIST fails when the key is absent and succeeds when it is present; the
failures are Internal (kernel rejection). -/
theorem c7_no_exist_exist_flag_semantics (m : Map) (st : MapState)
    (key value : List Nat) (hk : key.length = m.key_size)
    (hv : value.length = m.value_size) :
    ((mapFind st key).isSome = true →
      exceptIsInternal (m.update st key value MapFlags.NO_EXIST).1 = true ∧
      (m.update st key value MapFlags.EXIST).1 = .ok ()) ∧
    ((mapFind st key).isSome = false →
      exceptIsInternal (m.update st key value MapFlags.EXIST).1 = true ∧
      (m.update st key value MapFlags.NO_EXIST).1 = .ok ()) := by
  constructor <;> intro h <;>
    simp [Map.update, MapFlags.NO_EXIST, MapFlags.EXIST, hk, hv, h,
      exceptIsInternal, Error.isInternal]

theorem c7_witness :
    ([0, 0, 0, 2] : List Nat).length = mTest.key_size ∧
    ([9, 9, 9, 9, 9, 9, 9, 9] : List Nat).length = mTest.value_size ∧
    (mapFind stPresent [0, 0, 0, 2]).isSome = true ∧
    (mapFind [] [0, 0, 0, 2]).isSome = false ∧
    exceptIsInternal
      (mTest.update stPresent [0, 0, 0, 2] [9, 9, 9, 9, 9, 9, 9, 9]
        MapFlags.NO_EXIST).1 = true ∧
    (mTest.update [] [0, 0, 0, 2] [9, 9, 9, 9, 9, 9, 9, 9] MapFlags.NO_EXIST).1 =
      .ok () :=
  ⟨by decide, by decide, by decide, by decide,
    ((c7_no_exist_exist_flag_semantics mTest stPresent [0, 0, 0, 2]
      [9, 9, 9, 9, 9, 9, 9, 9] (by decide) (by decide)).1 (by decide)).1,
    ((c7_no_exist_exist_flag_semantics mTest [] [0, 0, 0, 2]
      [9, 9, 9, 9, 9, 9, 9, 9] (by decide) (by decide)).2 (by decide)).2⟩
